import Mathlib

/-!
# Verification of the `pallet` module in `src/lib.rs`

Shallow embedding of the Substrate pallet in `src/lib.rs`.  The pallet has
two storage items and one dispatchable:

* `GetValue : StorageValue<_, u32, ValueQuery>` (lines 69-72), getter
  `get_value`;
* `GetReservedBalance : StorageMap<_, Blake2_128Concat, AccountOf<T>,
  BalanceOf<T>, ValueQuery>` (lines 75-79), getter `get_reserved_balance`;
* `set_value(origin, value: u32)` (lines 99-121): `ensure_signed(origin)?`,
  query `T::Currency::reserved_balance(&caller)`, `deposit_event`,
  `GetValue::put(value)`, `GetReservedBalance::insert(caller, balance)`.

Account ids are modelled as `Nat` (opaque identifiers), balances as `Nat`
(`BalanceOf<T>` is an unsigned integer type, default 0), and the `u32`
`value` as `Nat` (the pallet performs no arithmetic on it, so no wraparound
can arise).  The `reserved_balance` query of the `ReservableCurrency` trait
is an external oracle, modelled as a function `Nat → Nat` passed in as a
parameter.  `print`/`debug::info!` (lines 108-110) are host-side logging
with no state effect and are not modelled.
-/

/-- Dispatch origin (frame_system `RawOrigin`): a signed account, root,
or the unsigned origin. -/
inductive Origin where
  | signed (who : Nat)
  | root
  | none'
deriving DecidableEq, Repr

/-- Whether the origin is a signed (keypair account) origin. -/
def Origin.isSigned : Origin → Bool
  | .signed _ => true
  | .root => false
  | .none' => false

/-- The only dispatch error this pallet can produce: `ensure_signed`
fails with `BadOrigin` on a non-signed origin. -/
inductive DispatchError where
  | badOrigin
deriving DecidableEq, Repr

/-- `frame_system::ensure_signed` (line 102): resolves a signed origin to
its account id and rejects every other origin with `BadOrigin`. -/
def ensure_signed : Origin → Except DispatchError Nat
  | .signed who => .ok who
  | .root => .error .badOrigin
  | .none' => .error .badOrigin

/-- Association-list lookup, the read of a Substrate `StorageMap`
(`none` when no entry was ever written for the key). -/
def mapLookup (k : Nat) : List (Nat × Nat) → Option Nat
  | [] => none
  | p :: rest => if p.1 = k then some p.2 else mapLookup k rest

/-- Association-list insert-or-replace, the semantics of
`StorageMap::insert` (overwrite, no history). -/
def mapInsert (k v : Nat) : List (Nat × Nat) → List (Nat × Nat)
  | [] => [(k, v)]
  | p :: rest => if p.1 = k then (k, v) :: rest else p :: mapInsert k v rest

/-- The pallet's observable state: the raw `GetValue` storage cell
(`none` when never written; the `ValueQuery` getter supplies the `u32`
default 0), the raw `GetReservedBalance` map entries, and the event log
kept by `frame_system` (each deposited `HelloValueStored(value, account)`
recorded as the pair `(value, account)` in deposit order). -/
structure PalletState where
  GetValue : Option Nat
  GetReservedBalance : List (Nat × Nat)
  events : List (Nat × Nat)
deriving DecidableEq, Repr

/-- Genesis state: neither storage item ever written, no events. -/
def initialState : PalletState :=
  { GetValue := none, GetReservedBalance := [], events := [] }

/-- Getter `get_value` (lines 69-72): `StorageValue` read with
`ValueQuery`, so an unwritten cell reads as the default `0`. -/
def get_value (s : PalletState) : Nat :=
  s.GetValue.getD 0

/-- Getter `get_reserved_balance` (lines 75-79): `StorageMap` read with
`ValueQuery`, so a key with no entry reads as the default balance `0`. -/
def get_reserved_balance (s : PalletState) (a : Nat) : Nat :=
  (mapLookup a s.GetReservedBalance).getD 0

/-- The dispatchable `set_value` (lines 99-121).  `oracle` is
`T::Currency::reserved_balance`.  On success it returns the updated
state; on `ensure_signed` failure the error propagates (`?`) before any
write or event deposit, so the caller's state is untouched. -/
def set_value (oracle : Nat → Nat) (origin : Origin) (value : Nat)
    (s : PalletState) : Except DispatchError PalletState :=
  match ensure_signed origin with
  | .error e => .error e
  | .ok caller =>
    let reserve_balance_of_caller := oracle caller
    let s1 := { s with events := s.events ++ [(value, caller)] }
    let s2 := { s1 with GetValue := some value }
    let s3 := { s2 with
      GetReservedBalance :=
        mapInsert caller reserve_balance_of_caller s2.GetReservedBalance }
    .ok s3

/-- One admitted extrinsic: the oracle state at admission time, the
origin and the `value` argument. -/
structure CallData where
  oracle : Nat → Nat
  origin : Origin
  value : Nat

/-- Host dispatch of one call: a failed `set_value` leaves the state
unchanged (the error is returned to the host before any mutation). -/
def dispatch (c : CallData) (s : PalletState) : PalletState :=
  match set_value c.oracle c.origin c.value s with
  | .ok s' => s'
  | .error _ => s

/-- Serial execution of a sequence of admitted calls, in admission
order, as the host serializes extrinsics. -/
def run (calls : List CallData) (s : PalletState) : PalletState :=
  match calls with
  | [] => s
  | c :: rest => run rest (dispatch c s)

/-- The primitive state-store/event operations `set_value` performs,
in source order (lines 113, 115, 117). -/
inductive Op where
  | depositEvent (value account : Nat)
  | putScalar (value : Nat)
  | insertSnapshot (account balance : Nat)
deriving DecidableEq, Repr

/-- Whether an operation is an event deposit. -/
def Op.isDeposit : Op → Bool
  | .depositEvent _ _ => true
  | _ => false

/-- Effect of one primitive operation on the state. -/
def applyOp (s : PalletState) : Op → PalletState
  | .depositEvent v a => { s with events := s.events ++ [(v, a)] }
  | .putScalar v => { s with GetValue := some v }
  | .insertSnapshot a b =>
      { s with GetReservedBalance := mapInsert a b s.GetReservedBalance }

/-- Effect of a sequence of primitive operations. -/
def applyOps (s : PalletState) : List Op → PalletState
  | [] => s
  | op :: rest => applyOps (applyOp s op) rest

/-- The operation trace of `set_value`, transcribed from the body of
lines 99-121: after `ensure_signed` and the oracle query, the deposit
(line 113) precedes the `GetValue::put` (line 115), which precedes the
`GetReservedBalance::insert` (line 117). -/
def set_value_trace (oracle : Nat → Nat) (origin : Origin) (value : Nat) :
    Except DispatchError (List Op) :=
  match ensure_signed origin with
  | .error e => .error e
  | .ok caller =>
    let reserve_balance_of_caller := oracle caller
    .ok [Op.depositEvent value caller, Op.putScalar value,
         Op.insertSnapshot caller reserve_balance_of_caller]

/-- The `value` argument of the last signed (hence successful) call in
the list, or the accumulator `d` when no signed call occurs. -/
def lastAcceptedFrom (d : Nat) : List CallData → Nat
  | [] => d
  | c :: rest =>
      lastAcceptedFrom (if c.origin.isSigned then c.value else d) rest

/-! ## Helper lemmas -/

theorem mapLookup_mapInsert_self (k v : Nat) (m : List (Nat × Nat)) :
    mapLookup k (mapInsert k v m) = some v := by
  induction m with
  | nil => simp [mapInsert, mapLookup]
  | cons p rest ih =>
    by_cases h : p.1 = k
    · simp [mapInsert, h, mapLookup]
    · simp [mapInsert, h, mapLookup, ih]

theorem mapLookup_mapInsert_ne (k k' v : Nat) (m : List (Nat × Nat))
    (h : k' ≠ k) : mapLookup k' (mapInsert k v m) = mapLookup k' m := by
  have hk : ¬ k = k' := fun hkk => h hkk.symm
  induction m with
  | nil => simp [mapInsert, mapLookup, hk]
  | cons p rest ih =>
    by_cases hp : p.1 = k
    · simp [mapInsert, hp, mapLookup, hk]
    · simp [mapInsert, hp, mapLookup, ih]

theorem set_value_signed (oracle : Nat → Nat) (a v : Nat) (s : PalletState) :
    set_value oracle (Origin.signed a) v s =
      Except.ok { GetValue := some v,
                  GetReservedBalance :=
                    mapInsert a (oracle a) s.GetReservedBalance,
                  events := s.events ++ [(v, a)] } := rfl

theorem run_lookup_none (a : Nat) (calls : List CallData) :
    ∀ s : PalletState, (∀ c ∈ calls, c.origin ≠ Origin.signed a) →
      mapLookup a s.GetReservedBalance = none →
      mapLookup a (run calls s).GetReservedBalance = none := by
  induction calls with
  | nil => intro s _ h0; exact h0
  | cons c rest ih =>
    intro s hc h0
    have hrest : ∀ c' ∈ rest, c'.origin ≠ Origin.signed a :=
      fun c' hm => hc c' (List.mem_cons_of_mem _ hm)
    have hhead : c.origin ≠ Origin.signed a := hc c (List.mem_cons_self _ _)
    refine ih (dispatch c s) hrest ?_
    cases hco : c.origin with
    | signed b =>
      have hba : b ≠ a := by intro hb; subst hb; exact hhead hco
      simpa [dispatch, set_value, ensure_signed, hco,
             mapLookup_mapInsert_ne b a _ _ (Ne.symm hba)] using h0
    | root => simpa [dispatch, set_value, ensure_signed, hco] using h0
    | none' => simpa [dispatch, set_value, ensure_signed, hco] using h0

theorem run_signed_events (l : List ((Nat → Nat) × Nat × Nat)) :
    ∀ s : PalletState,
      (run (l.map (fun t => ⟨t.1, Origin.signed t.2.1, t.2.2⟩)) s).events
        = s.events ++ l.map (fun t => (t.2.2, t.2.1)) := by
  induction l with
  | nil => intro s; simp [run]
  | cons t rest ih =>
    intro s
    simp only [List.map_cons, run]
    rw [ih]
    simp [dispatch, set_value, ensure_signed]

theorem run_get_value (calls : List CallData) :
    ∀ s : PalletState,
      get_value (run calls s) = lastAcceptedFrom (get_value s) calls := by
  induction calls with
  | nil => intro s; rfl
  | cons c rest ih =>
    intro s
    simp only [run, lastAcceptedFrom]
    rw [ih]
    congr 1
    cases hco : c.origin with
    | signed a =>
      simp [dispatch, set_value, ensure_signed, hco, get_value,
            Origin.isSigned]
    | root =>
      simp [dispatch, set_value, ensure_signed, hco, get_value,
            Origin.isSigned]
    | none' =>
      simp [dispatch, set_value, ensure_signed, hco, get_value,
            Origin.isSigned]

/-! ## Claims -/

/-- Claim C1: for every signed caller `a` and value `v`, after a
successful `set_value` the `get_value` getter returns `v` and the
`get_reserved_balance` getter for `a` returns exactly the oracle's
`reserved_balance` answer for `a` as queried during the call. -/
theorem C1_submit_postcondition (oracle : Nat → Nat) (a v : Nat)
    (s s' : PalletState)
    (h : set_value oracle (Origin.signed a) v s = Except.ok s') :
    get_value s' = v ∧ get_reserved_balance s' a = oracle a := by
  rw [set_value_signed] at h
  injection h with h
  subst h
  exact ⟨rfl, by simp [get_reserved_balance, mapLookup_mapInsert_self]⟩

/-- Witness for C1 at oracle `fun _ => 100`, account 1, value 42,
starting from the genesis state. -/
theorem C1_submit_postcondition_witness :
    get_value { GetValue := some 42, GetReservedBalance := [(1, 100)],
                events := [(42, 1)] } = 42 ∧
    get_reserved_balance
      { GetValue := some 42, GetReservedBalance := [(1, 100)],
        events := [(42, 1)] } 1 = 100 :=
  C1_submit_postcondition (fun _ => 100) 1 42 initialState
    { GetValue := some 42, GetReservedBalance := [(1, 100)],
      events := [(42, 1)] } rfl

/-- Counterexample to claim C2 as stated: account 7 has never called
`set_value` (its raw map entry is absent), yet the exposed getter
`get_reserved_balance` — declared with `ValueQuery` at lines 75-79 —
does not return an absent/`None` read: it returns the default balance
`0`, indistinguishable from the value read for account 1, which *did*
submit while its oracle reserved balance was 0. -/
theorem C2_counterexample :
    mapLookup 7 initialState.GetReservedBalance = none ∧
    get_reserved_balance initialState 7 = 0 ∧
    get_reserved_balance
      (dispatch ⟨fun _ => 0, Origin.signed 1, 5⟩ initialState) 7 =
    get_reserved_balance
      (dispatch ⟨fun _ => 0, Origin.signed 1, 5⟩ initialState) 1 := by
  exact ⟨rfl, rfl, rfl⟩

/-- Claim C2 amended: for every account `a` that never appears as the
signed caller of any admitted call in a run from genesis, the raw
`GetReservedBalance` map holds no entry for `a` (the underlying read is
`none`); however, because the storage map is declared with `ValueQuery`,
the exposed getter `get_reserved_balance` returns the default balance
`0` for `a`, not an absent/`None` value. -/
theorem C2_never_submitted_default (a : Nat) (calls : List CallData)
    (h : ∀ c ∈ calls, c.origin ≠ Origin.signed a) :
    mapLookup a (run calls initialState).GetReservedBalance = none ∧
    get_reserved_balance (run calls initialState) a = 0 := by
  have hn := run_lookup_none a calls initialState h rfl
  exact ⟨hn, by simp [get_reserved_balance, hn]⟩

/-- Witness for the amended C2: one call signed by account 1, read for
account 2. -/
theorem C2_never_submitted_default_witness :
    mapLookup 2
      (run [⟨fun _ => 0, Origin.signed 1, 5⟩]
        initialState).GetReservedBalance = none ∧
    get_reserved_balance
      (run [⟨fun _ => 0, Origin.signed 1, 5⟩] initialState) 2 = 0 :=
  C2_never_submitted_default 2 [⟨fun _ => 0, Origin.signed 1, 5⟩]
    (by intro c hc; rcases List.mem_singleton.mp hc with rfl; decide)

/-- Claim C3: a `set_value` call whose origin fails `ensure_signed`
returns the `BadOrigin` failure, and dispatching it leaves the state
byte-for-byte unchanged — scalar cell, every snapshot entry, and the
event log. -/
theorem C3_failed_auth_atomic (oracle : Nat → Nat) (origin : Origin)
    (v : Nat) (s : PalletState) (h : origin.isSigned = false) :
    set_value oracle origin v s = Except.error DispatchError.badOrigin ∧
    dispatch ⟨oracle, origin, v⟩ s = s := by
  cases origin with
  | signed a => simp [Origin.isSigned] at h
  | root => exact ⟨rfl, rfl⟩
  | none' => exact ⟨rfl, rfl⟩

/-- Witness for C3 at the root origin, value 7, genesis state. -/
theorem C3_failed_auth_atomic_witness :
    set_value (fun _ => 0) Origin.root 7 initialState =
      Except.error DispatchError.badOrigin ∧
    dispatch ⟨fun _ => 0, Origin.root, 7⟩ initialState = initialState :=
  C3_failed_auth_atomic (fun _ => 0) Origin.root 7 initialState rfl

/-- Claim C4: two successful `set_value` calls by the same account `a`
(values `v1` then `v2`, oracle answers `o1` then `o2`) leave the scalar
cell holding `v2` and the map entry for `a` holding exactly the second
call's queried balance `o2 a` — last-writer-wins overwrite, no history
of `v1` or of the first call's balance observable in either storage
item. -/
theorem C4_overwrite (o1 o2 : Nat → Nat) (a v1 v2 : Nat)
    (s s1 s2 : PalletState)
    (h1 : set_value o1 (Origin.signed a) v1 s = Except.ok s1)
    (h2 : set_value o2 (Origin.signed a) v2 s1 = Except.ok s2) :
    get_value s2 = v2 ∧ get_reserved_balance s2 a = o2 a ∧
    mapLookup a s2.GetReservedBalance = some (o2 a) := by
  rw [set_value_signed] at h1 h2
  injection h1 with h1
  injection h2 with h2
  subst h1
  subst h2
  refine ⟨rfl, ?_, ?_⟩
  · simp [get_reserved_balance, mapLookup_mapInsert_self]
  · exact mapLookup_mapInsert_self a (o2 a) _

/-- Witness for C4: account 1 submits 3 (oracle 10) then 4 (oracle 20)
from genesis. -/
theorem C4_overwrite_witness :
    get_value { GetValue := some 4,
                GetReservedBalance := [(1, 20)],
                events := [(3, 1), (4, 1)] } = 4 ∧
    get_reserved_balance
      { GetValue := some 4, GetReservedBalance := [(1, 20)],
        events := [(3, 1), (4, 1)] } 1 = 20 ∧
    mapLookup 1 [(1, 20)] = some 20 :=
  C4_overwrite (fun _ => 10) (fun _ => 20) 1 3 4 initialState
    { GetValue := some 3, GetReservedBalance := [(1, 10)],
      events := [(3, 1)] }
    { GetValue := some 4, GetReservedBalance := [(1, 20)],
      events := [(3, 1), (4, 1)] } rfl rfl

/-- Claim C5: within a successful `set_value`, the operation trace is
exactly deposit-then-put-then-insert (source lines 113, 115, 117): the
event `(v, a)` is deposited before either storage write, the trace
applied to the pre-state yields exactly the post-state, and the trace
holds exactly one event deposit. -/
theorem C5_event_before_writes (oracle : Nat → Nat) (a v : Nat)
    (s s' : PalletState)
    (h : set_value oracle (Origin.signed a) v s = Except.ok s') :
    set_value_trace oracle (Origin.signed a) v =
      Except.ok [Op.depositEvent v a, Op.putScalar v,
                 Op.insertSnapshot a (oracle a)] ∧
    applyOps s [Op.depositEvent v a, Op.putScalar v,
                Op.insertSnapshot a (oracle a)] = s' ∧
    ([Op.depositEvent v a, Op.putScalar v,
      Op.insertSnapshot a (oracle a)].filter Op.isDeposit).length = 1 := by
  rw [set_value_signed] at h
  injection h with h
  subst h
  exact ⟨rfl, rfl, rfl⟩

/-- Witness for C5 at oracle `fun _ => 100`, account 0, value 42,
genesis pre-state. -/
theorem C5_event_before_writes_witness :
    set_value_trace (fun _ => 100) (Origin.signed 0) 42 =
      Except.ok [Op.depositEvent 42 0, Op.putScalar 42,
                 Op.insertSnapshot 0 100] ∧
    applyOps initialState
      [Op.depositEvent 42 0, Op.putScalar 42, Op.insertSnapshot 0 100] =
      { GetValue := some 42, GetReservedBalance := [(0, 100)],
        events := [(42, 0)] } ∧
    ([Op.depositEvent 42 0, Op.putScalar 42,
      Op.insertSnapshot 0 100].filter Op.isDeposit).length = 1 :=
  C5_event_before_writes (fun _ => 100) 0 42 initialState
    { GetValue := some 42, GetReservedBalance := [(0, 100)],
      events := [(42, 0)] } rfl

/-- Claim C6: running any serial sequence of signed (hence successful)
calls `(oracle_i, a_i, v_i)` from genesis leaves the event log holding
exactly `(v_1, a_1), (v_2, a_2), …` in admission order. -/
theorem C6_event_order (l : List ((Nat → Nat) × Nat × Nat)) :
    (run (l.map (fun t => ⟨t.1, Origin.signed t.2.1, t.2.2⟩))
        initialState).events
      = l.map (fun t => (t.2.2, t.2.1)) := by
  simpa [initialState] using run_signed_events l initialState

/-- Claim C7: the scalar cell reads 0 in the genesis state, and after
any serial run of calls from genesis it reads the `value` argument of
the most recent signed (successful) call, or 0 when no signed call has
occurred — only successful `set_value` calls change it. -/
theorem C7_scalar_invariant :
    get_value initialState = 0 ∧
    ∀ calls : List CallData,
      get_value (run calls initialState) = lastAcceptedFrom 0 calls := by
  exact ⟨rfl, fun calls => run_get_value calls initialState⟩

/-- Claim C8: concrete scenario from genesis — account 0 (accountA),
oracle reserved balance 100, submits value 42.  The call succeeds, the
scalar getter reads 42, the snapshot getter for account 0 reads 100,
and the event log holds exactly the one entry `(42, 0)`. -/
theorem C8_concrete_scenario :
    set_value (fun a => if a = 0 then 100 else 0) (Origin.signed 0) 42
        initialState =
      Except.ok { GetValue := some 42, GetReservedBalance := [(0, 100)],
                  events := [(42, 0)] } ∧
    get_value { GetValue := some 42, GetReservedBalance := [(0, 100)],
                events := [(42, 0)] } = 42 ∧
    get_reserved_balance
      { GetValue := some 42, GetReservedBalance := [(0, 100)],
        events := [(42, 0)] } 0 = 100 ∧
    PalletState.events
      { GetValue := some 42, GetReservedBalance := [(0, 100)],
        events := [(42, 0)] } = [(42, 0)] := by
  exact ⟨rfl, rfl, rfl, rfl⟩

/-- Claim C9: `set_value` succeeds exactly when the origin is signed —
failed authentication (`BadOrigin`) is the only failure mode, and no
validation of `value` or of the oracle's answer can reject the call. -/
theorem C9_signed_iff_success (oracle : Nat → Nat) (origin : Origin)
    (v : Nat) (s : PalletState) :
    ((∃ s', set_value oracle origin v s = Except.ok s') ↔
      origin.isSigned = true) ∧
    (origin.isSigned = false →
      set_value oracle origin v s = Except.error DispatchError.badOrigin) := by
  cases origin with
  | signed a =>
    refine ⟨⟨fun _ => rfl, fun _ => ⟨_, set_value_signed oracle a v s⟩⟩, ?_⟩
    intro h
    exact absurd h (by simp [Origin.isSigned])
  | root =>
    refine ⟨⟨?_, ?_⟩, fun _ => rfl⟩
    · rintro ⟨s', hs⟩
      exact absurd hs (by simp [set_value, ensure_signed])
    · intro h
      exact absurd h (by simp [Origin.isSigned])
  | none' =>
    refine ⟨⟨?_, ?_⟩, fun _ => rfl⟩
    · rintro ⟨s', hs⟩
      exact absurd hs (by simp [set_value, ensure_signed])
    · intro h
      exact absurd h (by simp [Origin.isSigned])

/-- Witness for C9: at the root origin the inner implication fires and
the call fails with `BadOrigin`. -/
theorem C9_signed_iff_success_witness :
    set_value (fun _ => 0) Origin.root 7 initialState =
      Except.error DispatchError.badOrigin :=
  (C9_signed_iff_success (fun _ => 0) Origin.root 7 initialState).2 rfl

/-- Claim C10 (frame property): a successful `set_value` by account `a`
leaves the snapshot-map entry of every other account `b ≠ a` — present
or absent — exactly as it was, both at the raw-storage level and
through the `ValueQuery` getter. -/
theorem C10_frame (oracle : Nat → Nat) (a v : Nat) (s s' : PalletState)
    (b : Nat) (h : set_value oracle (Origin.signed a) v s = Except.ok s')
    (hb : b ≠ a) :
    mapLookup b s'.GetReservedBalance = mapLookup b s.GetReservedBalance ∧
    get_reserved_balance s' b = get_reserved_balance s b := by
  rw [set_value_signed] at h
  injection h with h
  subst h
  have hl := mapLookup_mapInsert_ne a b (oracle a) s.GetReservedBalance hb
  exact ⟨hl, by simp [get_reserved_balance, hl]⟩

/-- Witness for C10: account 1 submits value 9 over a state that holds
an entry `(2, 77)`; account 2's entry and getter read are unchanged. -/
theorem C10_frame_witness :
    mapLookup 2
      (PalletState.GetReservedBalance
        { GetValue := some 9, GetReservedBalance := [(2, 77), (1, 5)],
          events := [(9, 1)] }) =
      mapLookup 2
        (PalletState.GetReservedBalance
          { GetValue := none, GetReservedBalance := [(2, 77)],
            events := [] }) ∧
    get_reserved_balance
      { GetValue := some 9, GetReservedBalance := [(2, 77), (1, 5)],
        events := [(9, 1)] } 2 =
    get_reserved_balance
      { GetValue := none, GetReservedBalance := [(2, 77)],
        events := [] } 2 :=
  C10_frame (fun _ => 5) 1 9
    { GetValue := none, GetReservedBalance := [(2, 77)], events := [] }
    { GetValue := some 9, GetReservedBalance := [(2, 77), (1, 5)],
      events := [(9, 1)] } 2 rfl (by decide)
